import Mathlib

/-!
Verification of the `fs-child` actor (`src/lib.rs`): a shallow embedding of
its command extractor, permission gate, operation executor, chain loader and
session dispatcher, together with theorems settling the specification claims.

Modelling conventions:
* Rust `String`/`&str` values are Lean `String`s; where the source works with
  byte/char indices (the extractor) we work on `List Char`.  All markers the
  source searches for are ASCII, so char positions and Rust byte positions
  coincide at every index the source ever slices at.
* A Rust slice expression `&s[a..b]` panics when `a > b`; functions that can
  reach such a slice return `Option`, with `none` standing for the panic.
* serde_json `Value` is modelled by the inductive `Json`; numbers are `Int`
  (the only numeric accessor the source uses is `as_u64`).
* The external collaborators (filesystem host, store transport, serde
  encoders/decoders of the wrapper envelopes) are injected as records of
  functions, exactly as the spec's §6 describes them; the executor also
  records the calls it makes so that "the resource was never invoked" is a
  provable statement.
-/

namespace FsChild

/-- Model of `serde_json::Value`. -/
inductive Json where
  | null
  | bool (b : Bool)
  | num (n : Int)
  | str (s : String)
  | arr (elems : List Json)
  | obj (fields : List (String × Json))

/-- Model of `Value::get(key)`: field lookup on an object, `None` otherwise. -/
def jsonGet (v : Json) (key : String) : Option Json :=
  match v with
  | .obj fields => fields.lookup key
  | _ => none

/-- Model of serde_json's `Index` operator `v[key]`: the field if present,
`Value::Null` otherwise (it does not panic for string keys). -/
def jsonIndex (v : Json) (key : String) : Json :=
  (jsonGet v key).getD .null

/-- Model of `Value::as_str`. -/
def jsonAsStr (v : Json) : Option String :=
  match v with
  | .str s => some s
  | _ => none

/-- Model of `Value::as_array`. -/
def jsonAsArr (v : Json) : Option (List Json) :=
  match v with
  | .arr xs => some xs
  | _ => none

/-- Model of `Value::as_u64`: an integer in `[0, 2^64)`. -/
def jsonAsU64 (v : Json) : Option Nat :=
  match v with
  | .num n => if 0 ≤ n ∧ n < 2 ^ 64 then some n.toNat else none
  | _ => none

/-- `data.get(key).and_then(|v| v.as_str())`, a combination the dispatcher
uses repeatedly. -/
def jsonGetStr (v : Json) (key : String) : Option String :=
  (jsonGet v key).bind jsonAsStr

/-- The actor state (struct `State` in the source). -/
structure State where
  name : String
  child_id : Option String
  store_id : Option String
  base_path : String
  permissions : List String
deriving Repr, DecidableEq

/-- A decoded command block (struct `FsCommand` in the source). -/
structure FsCommand where
  operation : String
  path : String
  content : Option String
  old_text : Option String
  new_text : Option String
deriving Repr, DecidableEq

/-- `State::resolve_path`: absolute paths pass through, everything else is
joined textually under the base path. -/
def State.resolve_path (st : State) (relative_path : String) : String :=
  if "/".isPrefixOf relative_path then relative_path
  else st.base_path ++ "/" ++ relative_path

/-- The permission gate: the `operation_allowed` match at the top of the
per-command loop of `State::process_fs_commands`.  A Rust `match` on `&str`
is a chain of equality tests, rendered here as nested `if`s. -/
def operationAllowed (op : String) (permissions : List String) : Bool :=
  if op = "read-file" ∨ op = "list-files" then
    permissions.contains "read"
  else if op = "write-file" ∨ op = "create-dir" ∨ op = "edit-file" then
    permissions.contains "write"
  else if op = "delete-file" then
    permissions.contains "write"
  else
    false

/-- Modelled from the spec (§4.2), for refinement comparison with
`operationAllowed`: the fixed table mapping each operation to the capability
it requires, unrecognized operations mapping to no capability at all. -/
def requiredPermissionSpec (op : String) : Option String :=
  if op = "read-file" ∨ op = "list-files" then some "read"
  else if op = "write-file" ∨ op = "edit-file" ∨ op = "create-dir" ∨ op = "delete-file" then
    some "write"
  else none

/-- The six operation names the executor's dispatch recognizes. -/
def recognizedOps : List String :=
  ["read-file", "write-file", "edit-file", "list-files", "create-dir", "delete-file"]

/-! ## String scanning primitives used by the extractor

`str::find` and `str::split` from the Rust standard library, on `List Char`.
Both are only ever called by the source with a nonempty ASCII pattern. -/

/-- Model of Rust `str::find(pat)`: index of the first occurrence of `pat`,
`none` when there is none (`some 0` for the empty pattern, as in Rust). -/
def findSub (pat : List Char) : List Char → Option Nat
  | [] => if pat.isPrefixOf ([] : List Char) then some 0 else none
  | c :: rest =>
    if pat.isPrefixOf (c :: rest) then some 0
    else (findSub pat rest).map (· + 1)

/-- Model of Rust `str::split(pat)` for a nonempty pattern: cut at each
leftmost non-overlapping occurrence.  `acc` holds the chars of the current
piece in reverse; `skip` counts chars of a matched occurrence still to be
consumed (so the recursion is structural on the scanned list). -/
def splitOnAux (pat : List Char) : List Char → Nat → List Char → List (List Char)
  | acc, _, [] => [acc.reverse]
  | acc, k + 1, _ :: rest => splitOnAux pat acc k rest
  | acc, 0, c :: rest =>
    if pat.isPrefixOf (c :: rest) then
      acc.reverse :: splitOnAux pat [] (pat.length - 1) rest
    else
      splitOnAux pat (c :: acc) 0 rest

/-- Rust `content.split(marker).collect::<Vec<_>>()` (marker nonempty). -/
def splitOnSub (s pat : List Char) : List (List Char) :=
  splitOnAux pat [] 0 s

/-- Model of Rust `str::contains(pat)`: an occurrence exists.  In the Rust
standard library `contains` and `find` run the same searcher, so this is
`find(pat).is_some()`. -/
def containsSub (s pat : List Char) : Bool :=
  (findSub pat s).isSome

/-- Model of Rust `str::replace(pat, rep)` for a nonempty pattern: every
leftmost non-overlapping occurrence of `pat` is replaced by `rep`.  `skip`
plays the same role as in `splitOnAux`. -/
def replaceAux (pat rep : List Char) : Nat → List Char → List Char
  | k + 1, _ :: rest => replaceAux pat rep k rest
  | _, [] => []
  | 0, c :: rest =>
    if pat.isPrefixOf (c :: rest) then
      rep ++ replaceAux pat rep (pat.length - 1) rest
    else
      c :: replaceAux pat rep 0 rest

/-- Rust `str::replace(pat, rep)` on `String`s.  For the empty pattern Rust
matches at every char boundary; the source only ever replaces nonempty
patterns apart from a user-supplied `old_text`, whose empty case is the
boundary-interleaving below. -/
def replaceStr (s pat rep : String) : String :=
  if pat.data.isEmpty then
    String.mk (rep.data ++ s.data.flatMap (fun c => c :: rep.data))
  else
    String.mk (replaceAux pat.data rep.data 0 s.data)

/-- Rust `str::contains` on `String`s. -/
def containsStr (s pat : String) : Bool :=
  containsSub s.data pat.data

/-- Model of the Rust slice expression `&s[a..b]` at char granularity:
`none` is the out-of-range panic (`a > b`, or `b` past the end). -/
def sliceChk (s : List Char) (a b : Nat) : Option (List Char) :=
  if a ≤ b ∧ b ≤ s.length then some ((s.take b).drop a) else none

/-! ## The command extractor (`State::extract_fs_commands`)

`none` throughout stands for a Rust panic aborting the whole call. -/

/-- One optional sub-field of a block: if both its opening and closing tags
are found, slice between them (`off` is the opening tag's length, hard-coded
in the source); otherwise the field is absent.  `none` = panic. -/
def parseOptField (cmd_xml : List Char) (openTag closeTag : List Char) (off : Nat) :
    Option (Option String) :=
  match findSub openTag cmd_xml, findSub closeTag cmd_xml with
  | some a, some b =>
    match sliceChk cmd_xml (a + off) b with
    | some v => some (some (String.mk v))
    | none => none
  | _, _ => some none

/-- Decode one block body (the text before `</fs-command>`): `some none` when
a required field pair is missing (block skipped), `none` on panic. -/
def extractBlock (cmd_xml : List Char) : Option (Option FsCommand) :=
  match findSub "<operation>".data cmd_xml, findSub "</operation>".data cmd_xml with
  | some op_start, some op_end =>
    match sliceChk cmd_xml (op_start + 11) op_end with
    | none => none
    | some operation =>
      match findSub "<path>".data cmd_xml, findSub "</path>".data cmd_xml with
      | some path_start, some path_end =>
        match sliceChk cmd_xml (path_start + 6) path_end with
        | none => none
        | some path =>
          match parseOptField cmd_xml "<content>".data "</content>".data 9 with
          | none => none
          | some content =>
            match parseOptField cmd_xml "<old_text>".data "</old_text>".data 10 with
            | none => none
            | some old_text =>
              match parseOptField cmd_xml "<new_text>".data "</new_text>".data 10 with
              | none => none
              | some new_text =>
                some (some { operation := String.mk operation, path := String.mk path,
                             content := content, old_text := old_text,
                             new_text := new_text })
      | _, _ => some none
  | _, _ => some none

/-- The `for part in parts.iter().skip(1)` loop body: each part is scanned
for its closing `</fs-command>`; parts without one are skipped whole. -/
def extractLoop : List (List Char) → Option (List FsCommand)
  | [] => some []
  | part :: rest =>
    match findSub "</fs-command>".data part with
    | some cmd_end =>
      match extractBlock (part.take cmd_end) with
      | none => none
      | some none => extractLoop rest
      | some (some cmd) =>
        match extractLoop rest with
        | none => none
        | some cmds => some (cmd :: cmds)
    | none => extractLoop rest

/-- `State::extract_fs_commands(content, instance_name)`: split the text on
the name-scoped opening marker and decode every piece after the first.
`none` = panic. -/
def State.extract_fs_commands (content : String) (instance_name : String) :
    Option (List FsCommand) :=
  let marker := "<fs-command name=\"" ++ instance_name ++ "\">"
  let parts := splitOnSub content.data marker.data
  extractLoop (parts.drop 1)

/-! ## The operation executor (`State::process_fs_commands`)

The filesystem host of §6 is injected as a record of synchronous calls; the
executor additionally returns the list of calls it made, so that frame
properties ("the write was never invoked") are provable. -/

/-- The outcome of reading a file, as far as the source can observe it:
`read_file` yields raw bytes which `String::from_utf8` either decodes to a
string or rejects.  Byte-level content is abstracted by that decode result —
no claim depends on the encoding itself. -/
inductive FileBytes where
  | valid (s : String)
  | invalid
deriving Repr, DecidableEq

/-- The host filesystem interface (`bindings::ntwk::theater::filesystem`). -/
structure Host where
  read_file : String → Except String FileBytes
  write_file : String → String → Except String Unit
  list_files : String → Except String (List String)
  create_dir : String → Except String Unit
  delete_file : String → Except String Unit

/-- One call made to the host filesystem, with its arguments. -/
inductive FsCall where
  | read (path : String)
  | write (path : String) (content : String)
  | list (path : String)
  | createDir (path : String)
  | deleteFile (path : String)
deriving Repr, DecidableEq

/-- The body of the `for cmd in commands` loop of
`State::process_fs_commands`: resolve the path, check the gate, dispatch.
Returns the `(operation, message)` result pushed for this command together
with the host calls made on its behalf. -/
def processOne (st : State) (host : Host) (cmd : FsCommand) :
    (String × String) × List FsCall :=
  let path := st.resolve_path cmd.path
  if !operationAllowed cmd.operation st.permissions then
    ((cmd.operation, "Operation '" ++ cmd.operation ++ "' not permitted"), [])
  else if cmd.operation = "read-file" then
    match host.read_file path with
    | .ok (.valid content_str) =>
      ((cmd.operation, "Contents of '" ++ cmd.path ++ "': " ++ content_str),
        [.read path])
    | .ok .invalid =>
      ((cmd.operation, "Failed to decode file content of '" ++ cmd.path ++ "'"),
        [.read path])
    | .error e =>
      ((cmd.operation, "Failed to read file '" ++ cmd.path ++ "': " ++ e),
        [.read path])
  else if cmd.operation = "write-file" then
    match cmd.content with
    | some content =>
      match host.write_file path content with
      | .ok _ =>
        ((cmd.operation, "Successfully wrote to file '" ++ cmd.path ++ "'"),
          [.write path content])
      | .error e =>
        ((cmd.operation, "Failed to write to file '" ++ cmd.path ++ "': " ++ e),
          [.write path content])
    | none =>
      ((cmd.operation, "No content provided for write operation"), [])
  else if cmd.operation = "edit-file" then
    match cmd.old_text, cmd.new_text with
    | some old_text, some new_text =>
      match host.read_file path with
      | .ok (.valid content_str) =>
        if containsStr content_str old_text then
          let edited := replaceStr content_str old_text new_text
          match host.write_file path edited with
          | .ok _ =>
            ((cmd.operation, "Successfully edited file '" ++ cmd.path ++ "'"),
              [.read path, .write path edited])
          | .error e =>
            ((cmd.operation,
                "Failed to write edited content to '" ++ cmd.path ++ "': " ++ e),
              [.read path, .write path edited])
        else
          ((cmd.operation, "Text to replace not found in '" ++ cmd.path ++ "'"),
            [.read path])
      | .ok .invalid =>
        ((cmd.operation, "Failed to decode file content of '" ++ cmd.path ++ "'"),
          [.read path])
      | .error e =>
        ((cmd.operation, "Failed to read file '" ++ cmd.path ++ "': " ++ e),
          [.read path])
    | _, _ =>
      ((cmd.operation,
          "Both old_text and new_text must be provided for edit operation"), [])
  else if cmd.operation = "list-files" then
    match host.list_files path with
    | .ok files =>
      ((cmd.operation,
          "Contents of '" ++ cmd.path ++ "': "
            ++ String.intercalate "\n" (files.map (fun f => " " ++ f))),
        [.list path])
    | .error e =>
      ((cmd.operation, "Failed to list files in '" ++ cmd.path ++ "': " ++ e),
        [.list path])
  else if cmd.operation = "create-dir" then
    match host.create_dir path with
    | .ok _ =>
      ((cmd.operation, "Created directory '" ++ cmd.path ++ "'"), [.createDir path])
    | .error e =>
      ((cmd.operation, "Failed to create directory '" ++ cmd.path ++ "': " ++ e),
        [.createDir path])
  else if cmd.operation = "delete-file" then
    match host.delete_file path with
    | .ok _ =>
      ((cmd.operation, "Deleted file '" ++ cmd.path ++ "'"), [.deleteFile path])
    | .error e =>
      ((cmd.operation, "Failed to delete file '" ++ cmd.path ++ "': " ++ e),
        [.deleteFile path])
  else
    ((cmd.operation, "Unknown operation: " ++ cmd.operation), [])

/-- `State::process_fs_commands`: the loop over the command sequence,
accumulating one result per command in order (plus the accumulated host
call trace). -/
def State.process_fs_commands (st : State) (host : Host) :
    List FsCommand → List (String × String) × List FsCall
  | [] => ([], [])
  | cmd :: rest =>
    let r := processOne st host cmd
    let rs := State.process_fs_commands st host rest
    (r.1 :: rs.1, r.2 ++ rs.2)

/-! ## The chain loader (`State::load_message`)

The store transport and the serde (de)serialization of the wrapper
envelopes are collaborators (spec §1, §6), injected as `StoreOracle`. -/

/-- The request payload variants (`enum Action` in the source). -/
inductive Action where
  | Get (id : String)
deriving Repr, DecidableEq

/-- The store request wrapper (`struct Request` in the source). -/
structure Request where
  _type : String
  data : Action
deriving Repr, DecidableEq

/-- Token usage metadata carried by assistant messages (`struct Usage`). -/
structure Usage where
  input_tokens : Nat
  output_tokens : Nat
deriving Repr, DecidableEq

/-- A chat message, in either of the two protocol shapes (`enum Message`). -/
inductive Message where
  | User (content : String)
  | Assistant (content : String) (id : String) (model : String)
      (stop_reason : String) (stop_sequence : Option String)
      (message_type : String) (usage : Usage)
deriving Repr, DecidableEq

/-- `Message::content`: the content text, whatever the shape. -/
def Message.content : Message → String
  | .User content => content
  | .Assistant content _ _ _ _ _ _ => content

/-- The outbound reply record (`struct ChildMessage`). -/
structure ChildMessage where
  child_id : String
  text : String
  html : Option String
  parent_id : Option String
  data : Json

/-- A chain entry payload (`enum MessageData`). -/
inductive MessageData where
  | Chat (msg : Message)
  | ChildRollup (msgs : List ChildMessage)

/-- One entry of the message chain (`struct ChainEntry`). -/
structure ChainEntry where
  parent : Option String
  id : Option String
  data : MessageData

/-- The external store plus the serde codecs of the wrapper envelopes:
`to_vec` serializes the request, `request` is the host transport call,
`parse_json` is `serde_json::from_slice::<Value>` on the response bytes and
`parse_chain_entry` is `serde_json::from_slice::<ChainEntry>` on the decoded
payload bytes. -/
structure StoreOracle where
  to_vec : Request → Except String (List Nat)
  request : String → List Nat → Except String (List Nat)
  parse_json : List Nat → Except String Json
  parse_chain_entry : List Nat → Except String ChainEntry

/-- `State::load_message`: build the Get request, send it, demand an "ok"
status and a byte-array payload at `data.Get.value`, and decode it as a
ChainEntry.  Every failure is a single `Except.error` (Rust
`Box<dyn Error>`); non-ok status and missing payload share the message
"Failed to load message from store". -/
def State.load_message (st : State) (oracle : StoreOracle) (id : String) :
    Except String ChainEntry :=
  match st.store_id with
  | none => .error "Store ID not set"
  | some store_id =>
    match oracle.to_vec { _type := "request", data := .Get id } with
    | .error e => .error e
    | .ok request_bytes =>
      match oracle.request store_id request_bytes with
      | .error e => .error e
      | .ok response_bytes =>
        match oracle.parse_json response_bytes with
        | .error e => .error e
        | .ok response =>
          if jsonAsStr (jsonIndex response "status") = some "ok" then
            match ((jsonGet response "data").bind
                (fun d => jsonGet d "Get")).bind (fun g => jsonGet g "value") with
            | some value =>
              match jsonAsArr value with
              | none => .error "Expected byte array"
              | some items =>
                let bytes := items.map (fun v => (jsonAsU64 v).getD 0 % 256)
                match oracle.parse_chain_entry bytes with
                | .error e => .error e
                | .ok entry => .ok entry
            | none => .error "Failed to load message from store"
          else
            .error "Failed to load message from store"

/-! ## The session dispatcher (`handle_request`)

Modelled after host-envelope (de)serialization, which the spec excludes: the
persisted state arrives as `State`, the inbound message as parsed `Json`, and
the transition returns the new state and the reply record.  `none` stands
for a Rust panic reaching the dispatcher (only the extractor can raise
one). -/

/-- The capability-description template emitted on introduction, before its
`\x7bname\x7d` / `\x7bpermissions\x7d` placeholders are substituted. -/
def introText : String :=
  "Filesystem operations for '{name}' initialized.\n\nAvailable commands (with required permissions):\n- read-file (requires 'read'): Read file contents\n- write-file (requires 'write'): Write to a file\n- edit-file (requires 'write'): Edit file contents by replacing text\n- list-files (requires 'read'): List directory contents\n- create-dir (requires 'write'): Create a new directory\n- delete-file (requires 'write'): Delete a file\n\nCommand formats:\n\n1. List files:\n<fs-command name=\"{name}\">\n  <operation>list-files</operation>\n  <path>.</path>\n</fs-command>\n\n2. Read file:\n<fs-command name=\"{name}\">\n  <operation>read-file</operation>\n  <path>src/file.rs</path>\n</fs-command>\n\n3. Write file:\n<fs-command name=\"{name}\">\n  <operation>write-file</operation>\n  <path>src/file.rs</path>\n  <content>file contents here</content>\n</fs-command>\n\n4. Edit file:\n<fs-command name=\"{name}\">\n  <operation>edit-file</operation>\n  <path>src/file.rs</path>\n  <old_text>text to find</old_text>\n  <new_text>replacement text</new_text>\n</fs-command>\n\n5. Create directory:\n<fs-command name=\"{name}\">\n  <operation>create-dir</operation>\n  <path>new_directory</path>\n</fs-command>\n\n6. Delete file:\n<fs-command name=\"{name}\">\n  <operation>delete-file</operation>\n  <path>file_to_delete.txt</path>\n</fs-command>\n\nCurrent permissions: {permissions}"

/-- The HTML variant of the introduction reply. -/
def introHtml (name permissions : String) : String :=
  "<div style=\"background: var(--bg-secondary); border: 1px solid var(--border-color); border-radius: var(--radius-md); padding: 1rem;\">\n                            <h3 style=\"color: var(--accent-primary); margin-bottom: 0.75rem;\">Filesystem Operations</h3>\n                            <p>Operations for <strong>"
    ++ name
    ++ "</strong> initialized with permissions: <code>"
    ++ permissions
    ++ "</code></p>\n                            \n                            <div style=\"margin-top: 1rem;\">\n                                <h4 style=\"color: var(--text-primary);\">Available Commands:</h4>\n                                <ul>\n                                    <li><code>read-file</code> - Read file contents (requires 'read')</li>\n                                    <li><code>write-file</code> - Write to a file (requires 'write')</li>\n                                    <li><code>edit-file</code> - Edit file contents (requires 'write')</li>\n                                    <li><code>list-files</code> - List directory contents (requires 'read')</li>\n                                    <li><code>create-dir</code> - Create a new directory (requires 'write')</li>\n                                    <li><code>delete-file</code> - Delete a file (requires 'write')</li>\n                                </ul>\n                            </div>\n                            \n                            <div style=\"margin-top: 1rem;\">\n                                <h4 style=\"color: var(--text-primary);\">Command Examples:</h4>\n                                <div style=\"background: var(--bg-tertiary); padding: 0.75rem; border-radius: var(--radius-sm); margin-bottom: 0.75rem;\">\n                                    <pre style=\"margin: 0;\"><code>&lt;fs-command name=\""
    ++ name
    ++ "\"&gt;\n  &lt;operation&gt;list-files&lt;/operation&gt;\n  &lt;path&gt;.&lt;/path&gt;\n&lt;/fs-command&gt;</code></pre>\n                                </div>\n                                <div style=\"background: var(--bg-tertiary); padding: 0.75rem; border-radius: var(--radius-sm);\">\n                                    <pre style=\"margin: 0;\"><code>&lt;fs-command name=\""
    ++ name
    ++ "\"&gt;\n  &lt;operation&gt;read-file&lt;/operation&gt;\n  &lt;path&gt;src/file.rs&lt;/path&gt;\n&lt;/fs-command&gt;</code></pre>\n                                </div>\n                            </div>\n                        </div>\n                        "

/-- The HTML wrapper of a head-update load-failure diagnostic. -/
def errorHtml (error_text : String) : String :=
  "<div style=\"background: var(--bg-secondary); border: 1px solid var(--border-color); border-radius: var(--radius-md); padding: 1rem;\">\n                                <h3 style=\"color: #EF4444; margin-bottom: 0.75rem;\">Error</h3>\n                                <div style=\"background: var(--bg-tertiary); padding: 0.75rem; border-radius: var(--radius-sm);\">\n                                    <p style=\"margin: 0;\">"
    ++ error_text
    ++ "</p>\n                                </div>\n                            </div>\n                            "

/-- Icon and color chosen per operation tag when formatting results. -/
def iconColor (op_type : String) : String × String :=
  if op_type = "read-file" then ("📄", "#3B82F6")
  else if op_type = "write-file" then ("✏️", "#10B981")
  else if op_type = "edit-file" then ("🔄", "#8B5CF6")
  else if op_type = "list-files" then ("📁", "#F59E0B")
  else if op_type = "create-dir" then ("📂", "#10B981")
  else if op_type = "delete-file" then ("🗑️", "#EF4444")
  else ("❓", "#6B7280")

/-- One formatted result block of the transcript HTML. -/
def resultHtmlPart (icon color op_type result : String) : String :=
  "<div style=\"margin-bottom: 1rem;\">\n                                                <div style=\"display: flex; align-items: center; margin-bottom: 0.5rem;\">\n                                                    <span style=\"margin-right: 0.5rem;\">"
    ++ icon
    ++ "</span>\n                                                    <span style=\"color: "
    ++ color
    ++ "; font-weight: bold;\">"
    ++ op_type
    ++ "</span>\n                                                </div>\n                                                <div style=\"background: var(--bg-tertiary); padding: 0.75rem; border-radius: var(--radius-sm);\">\n                                                    <pre style=\"margin: 0; white-space: pre-wrap;\"><code>"
    ++ result
    ++ "</code></pre>\n                                                </div>\n                                            </div>"

/-- The outer wrapper of the transcript HTML. -/
def resultsHtmlWrap (results_html : String) : String :=
  "<div style=\"background: var(--bg-secondary); border: 1px solid var(--border-color); border-radius: var(--radius-md); padding: 1rem;\">\n                                            <h3 style=\"color: var(--accent-primary); margin-bottom: 0.75rem;\">Filesystem Operation Results</h3>\n                                            "
    ++ results_html
    ++ "\n                                        </div>\n                                        "

/-- The transcript HTML: one part per result, joined and wrapped. -/
def resultsHtml (results : List (String × String)) : String :=
  let html_parts := results.map (fun r =>
    let ic := iconColor r.1
    resultHtmlPart ic.1 ic.2 r.1 r.2)
  resultsHtmlWrap (String.join html_parts)

/-- The reply emitted when an introduction lacks `child_id` or `store_id`
(or the whole `data` object); the state is not mutated. -/
def introFailureReply (st : State) : State × ChildMessage :=
  (st,
    { child_id := st.child_id.getD "",
      text := "Failed to get child_id or store_id from introduction",
      html := some "<div style=\"color: var(--text-primary); padding: 0.5rem;\"><p>Failed to get child_id or store_id from introduction</p></div>",
      parent_id := none, data := Json.obj [] })

/-- The empty acknowledgment a head-update falls through to when nothing is
to be done (identity or head missing, rollup payload, or no commands). -/
def headUpdateFallthrough (st : State) (request : Json) : State × ChildMessage :=
  (st,
    { child_id := st.child_id.getD "", text := "", html := none,
      parent_id := jsonAsStr (jsonIndex (jsonIndex request "data") "head"),
      data := Json.obj [] })

/-- `handle_request`: the per-message state machine, dispatching on the
inbound `msg_type`. -/
def handle_request (st : State) (request : Json) (oracle : StoreOracle)
    (host : Host) : Option (State × ChildMessage) :=
  match jsonAsStr (jsonIndex request "msg_type") with
  | some msg_type =>
    if msg_type = "introduction" then
      match jsonGet request "data" with
      | some data =>
        match jsonGetStr data "child_id", jsonGetStr data "store_id" with
        | some child_id, some store_id =>
          let st2 := { st with child_id := some child_id, store_id := some store_id }
          let text := replaceStr (replaceStr introText "\x7bname\x7d" st2.name)
            "\x7bpermissions\x7d" (String.intercalate ", " st2.permissions)
          let html := introHtml st2.name (String.intercalate ", " st2.permissions)
          let head_id := jsonGetStr data "head"
          some (st2,
            { child_id := child_id, text := text, html := some html,
              parent_id := head_id, data := Json.obj [] })
        | _, _ => some (introFailureReply st)
      | none => some (introFailureReply st)
    else if msg_type = "head-update" then
      match st.child_id, jsonAsStr (jsonIndex (jsonIndex request "data") "head") with
      | some child_id, some head =>
        match st.load_message oracle head with
        | .ok entry =>
          match entry.data with
          | .Chat msg =>
            match State.extract_fs_commands msg.content st.name with
            | none => none
            | some commands =>
              if commands.isEmpty then some (headUpdateFallthrough st request)
              else
                let results := (st.process_fs_commands host commands).1
                let results_text := String.intercalate "\n\n" (results.map (fun r => r.2))
                let html := resultsHtml results
                some (st,
                  { child_id := child_id, text := results_text, html := some html,
                    parent_id := some head,
                    data := Json.obj [("head", Json.str head)] })
          | .ChildRollup _ => some (headUpdateFallthrough st request)
        | .error e =>
          let error_text := "Failed to load message: " ++ e
          some (st,
            { child_id := child_id, text := error_text,
              html := some (errorHtml error_text),
              parent_id := some head,
              data := Json.obj [("head", Json.str head)] })
      | _, _ => some (headUpdateFallthrough st request)
    else
      let msg := "Unknown message type: " ++ msg_type
      some (st,
        { child_id := st.child_id.getD "", text := msg,
          html := some ("<div style=\"color: var(--text-primary); padding: 0.5rem;\"><p>" ++ msg ++ "</p></div>"),
          parent_id := jsonAsStr (jsonIndex (jsonIndex request "data") "head"),
          data := Json.obj [] })
  | none =>
    some (st,
      { child_id := st.child_id.getD "", text := "No message type provided",
        html := some "<div style=\"color: var(--text-primary); padding: 0.5rem;\"><p>No message type provided</p></div>",
        parent_id := jsonAsStr (jsonIndex (jsonIndex request "data") "head"),
        data := Json.obj [] })

/-- `State::new`: build the initial state from the optional init blob.  The
blob's serde parse is a collaborator, so the input arrives as the parse
outcome: `none` = no data, `some (.error e)` = unparseable bytes,
`some (.ok config)` = parsed JSON. -/
def State.new (init_data : Option (Except String Json)) : State :=
  match init_data with
  | some (.ok config) =>
    { name := (jsonAsStr (jsonIndex config "name")).getD "default",
      child_id := none,
      store_id := none,
      base_path := (jsonAsStr (jsonIndex config "base_path")).getD ".",
      permissions :=
        match jsonAsArr (jsonIndex config "permissions") with
        | some arr => arr.filterMap jsonAsStr
        | none => ["read", "write"] }
  | _ =>
    { name := "default", child_id := none, store_id := none,
      base_path := ".", permissions := ["read", "write"] }

/-! ## Concrete fixtures used by witness theorems -/

/-- A simple total host: reads always decode to `"hello"`, every mutation
succeeds, listings are empty. -/
def demoHost : Host where
  read_file := fun _ => .ok (.valid "hello")
  write_file := fun _ _ => .ok ()
  list_files := fun _ => .ok []
  create_dir := fun _ => .ok ()
  delete_file := fun _ => .ok ()

/-- A session holding only the "read" capability. -/
def demoReadOnlyState : State :=
  { name := "default", child_id := none, store_id := none, base_path := ".",
    permissions := ["read"] }

/-- A session holding both capabilities. -/
def demoRWState : State :=
  { name := "default", child_id := none, store_id := none, base_path := ".",
    permissions := ["read", "write"] }

/-- A write command, for exercising the denial path. -/
def demoWriteCmd : FsCommand :=
  { operation := "write-file", path := "f.txt", content := some "hi",
    old_text := none, new_text := none }

/-- An edit command whose `old_text` does not occur in `demoHost`'s file
content. -/
def demoEditCmd : FsCommand :=
  { operation := "edit-file", path := "f.txt", content := none,
    old_text := some "zzz", new_text := some "yy" }

/-- A chain entry with a user chat payload. -/
def demoEntry : ChainEntry :=
  { parent := none, id := none, data := .Chat (.User "hi") }

/-- A session bound to identity "a" and store "s". -/
def demoStoreState : State :=
  { name := "fs", child_id := some "a", store_id := some "s",
    base_path := ".", permissions := ["read", "write"] }

/-- A response in the older protocol shape: payload directly under a
top-level `value` key. -/
def demoOldResp : Json :=
  Json.obj [("status", Json.str "ok"),
            ("value", Json.arr [Json.num 104, Json.num 105])]

/-- A response in the newer protocol shape: payload under `data.Get.value`. -/
def demoNewResp : Json :=
  Json.obj [("status", Json.str "ok"),
            ("data", Json.obj [("Get",
              Json.obj [("value", Json.arr [Json.num 104, Json.num 105])])])]

/-- A response with status "error". -/
def demoErrResp : Json :=
  Json.obj [("status", Json.str "error")]

/-- A store oracle whose transport succeeds, whose response parses to `resp`
and whose entry decoder always succeeds with `demoEntry`. -/
def mkDemoOracle (resp : Json) : StoreOracle :=
  { to_vec := fun _ => .ok [],
    request := fun _ _ => .ok [],
    parse_json := fun _ => .ok resp,
    parse_chain_entry := fun _ => .ok demoEntry }

/-- Introduction payload carrying a fresh identity and store handle. -/
def introData : Json :=
  Json.obj [("child_id", Json.str "b"), ("store_id", Json.str "t")]

/-- An introduction message carrying `introData`. -/
def introRebindReq : Json :=
  Json.obj [("msg_type", Json.str "introduction"), ("data", introData)]

/-- A head-update message pointing at head "h1". -/
def headUpdateReq : Json :=
  Json.obj [("msg_type", Json.str "head-update"),
            ("data", Json.obj [("head", Json.str "h1")])]

/-! ## Claim theorems -/

/-! ### Supporting lemmas for the executor -/

/-- The executor's result list is the image of the command list under the
per-command loop body: one result per command, in input order. -/
theorem process_fs_commands_eq_map (st : State) (host : Host) (cmds : List FsCommand) :
    (st.process_fs_commands host cmds).1 = cmds.map (fun c => (processOne st host c).1) := by
  induction cmds with
  | nil => rfl
  | cons c rest ih => simp [State.process_fs_commands, ih]

/-- A denied command produces exactly the "not permitted" result and makes
no host call. -/
theorem processOne_denied (st : State) (host : Host) (cmd : FsCommand)
    (h : operationAllowed cmd.operation st.permissions = false) :
    processOne st host cmd =
      ((cmd.operation, "Operation '" ++ cmd.operation ++ "' not permitted"), []) := by
  simp [processOne, h]

/-- Only the six recognized operation names can pass the gate. -/
theorem allowed_imp_recognized (op : String) (perms : List String)
    (h : operationAllowed op perms = true) : op ∈ recognizedOps := by
  unfold operationAllowed at h
  split_ifs at h with h1 h2 h3 <;> simp [recognizedOps] <;> tauto

/-- C1 (counterexample): the extractor does not recognize the bare marker
`<fs-command>`.  On the claim's own scenario input, with the default instance
name, extraction returns zero commands instead of the claimed one command:
the only opening marker the code splits on is the name-scoped
`<fs-command name="X">`. -/
theorem extract_bare_marker_yields_no_commands :
    State.extract_fs_commands
      "<fs-command><operation>list-files</operation><path>.</path></fs-command>"
      "default" = some [] := by
  decide

/-- C1 (amended): the extractor recognizes exactly the name-scoped opening
marker; the scenario input written with `<fs-command name="default">` yields
exactly one Command with operation `list-files` and path `"."`. -/
theorem extract_named_marker_yields_one_command :
    State.extract_fs_commands
      "<fs-command name=\"default\"><operation>list-files</operation><path>.</path></fs-command>"
      "default" =
      some [{ operation := "list-files", path := ".", content := none,
              old_text := none, new_text := none }] := by
  decide

/-- C4: extraction does not totally succeed.  A block whose closing
`</operation>` tag appears before its opening `<operation>` tag drives the
source's slice `&cmd_xml[op_start + 11..op_end]` into `start > end`, a Rust
panic — modelled as `none` — instead of the block being skipped. -/
theorem extract_panics_on_out_of_order_tags :
    State.extract_fs_commands
      "<fs-command name=\"default\"></operation><operation>read-file</operation><path>.</path></fs-command>"
      "default" = none := by
  decide

/-- C5: the permission gate is a pure function of the operation name and the
permission set and agrees everywhere with the spec's fixed table — read
operations require "read", write operations require "write", unrecognized
operations are always denied — and the empty permission set denies every
operation. -/
theorem gate_matches_spec_table :
    (∀ (op : String) (perms : List String),
      operationAllowed op perms =
        match requiredPermissionSpec op with
        | some p => perms.contains p
        | none => false) ∧
    (∀ op : String, operationAllowed op [] = false) := by
  constructor
  · intro op perms
    unfold operationAllowed requiredPermissionSpec
    split_ifs with h1 h2 h3 h4 h5 h6 <;> simp_all
  · intro op
    unfold operationAllowed
    split_ifs <;> simp [List.contains]

/-- C6: the executor yields exactly one ExecutionResult per input command,
in input order; a permission denial contributes exactly the "not permitted"
result for that command, touches the host not at all, and the batch goes on
(the map equation covers every later command).  The executor is a total
function into result lists — no failure escapes as a fault. -/
theorem executor_one_result_per_command_in_order
    (st : State) (host : Host) (cmds : List FsCommand) :
    (st.process_fs_commands host cmds).1 =
        cmds.map (fun c => (processOne st host c).1) ∧
    (st.process_fs_commands host cmds).1.length = cmds.length ∧
    (∀ cmd : FsCommand, operationAllowed cmd.operation st.permissions = false →
      processOne st host cmd =
        ((cmd.operation, "Operation '" ++ cmd.operation ++ "' not permitted"), [])) := by
  refine ⟨process_fs_commands_eq_map st host cmds, ?_, ?_⟩
  · simp [process_fs_commands_eq_map st host cmds]
  · intro cmd h
    exact processOne_denied st host cmd h

/-- C6 (witness): with only the "read" capability, a write command is denied,
its result is the "not permitted" line and no host call is made. -/
theorem executor_denial_witness :
    operationAllowed "write-file" ["read"] = false ∧
    processOne demoReadOnlyState demoHost demoWriteCmd =
      (("write-file", "Operation 'write-file' not permitted"), []) :=
  ⟨by decide,
    (executor_one_result_per_command_in_order demoReadOnlyState demoHost []).2.2
      demoWriteCmd (by decide)⟩

/-- C7: for an edit-file command with both texts present whose target reads
back as valid text: when `old_text` occurs in the content the executor writes
back the content with every occurrence replaced (the write call carries
exactly `replaceStr content old new`); when it does not occur the result
reports "not found" and the only host call is the read — the write is never
invoked, so the file is untouched. -/
theorem edit_file_replaces_all_or_reports_not_found
    (st : State) (host : Host) (cmd : FsCommand) (o n content : String)
    (hop : cmd.operation = "edit-file")
    (hperm : st.permissions.contains "write" = true)
    (ho : cmd.old_text = some o) (hn : cmd.new_text = some n)
    (hread : host.read_file (st.resolve_path cmd.path) = .ok (.valid content)) :
    (containsStr content o = true →
      (processOne st host cmd).2 =
        [.read (st.resolve_path cmd.path),
         .write (st.resolve_path cmd.path) (replaceStr content o n)]) ∧
    (containsStr content o = false →
      (processOne st host cmd).1 =
        (cmd.operation, "Text to replace not found in '" ++ cmd.path ++ "'") ∧
      (processOne st host cmd).2 = [.read (st.resolve_path cmd.path)]) := by
  have hmem : "write" ∈ st.permissions := by simpa using hperm
  constructor
  · intro hc
    simp [processOne, operationAllowed, hop, hmem, ho, hn, hread, hc]
    cases hw : host.write_file (st.resolve_path cmd.path) (replaceStr content o n) <;>
      simp [hw]
  · intro hc
    simp [processOne, operationAllowed, hop, hmem, ho, hn, hread, hc]

/-- C7 (witness): editing `"hello"` with an absent `old_text` reports "not
found" and the trace holds the read only — no write call. -/
theorem edit_file_not_found_witness :
    containsStr "hello" "zzz" = false ∧
    (processOne demoRWState demoHost demoEditCmd).1 =
        (demoEditCmd.operation,
          "Text to replace not found in '" ++ demoEditCmd.path ++ "'") ∧
    (processOne demoRWState demoHost demoEditCmd).2 =
        [.read (demoRWState.resolve_path demoEditCmd.path)] :=
  ⟨by decide,
    (edit_file_replaces_all_or_reports_not_found demoRWState demoHost demoEditCmd
        "zzz" "yy" "hello" rfl (by decide) rfl rfl rfl).2 (by decide)⟩

/-- C10: the gate only ever admits the six recognized operation names, and a
command with any other operation name receives the "not permitted" result
with no host call — so the executor's trailing "Unknown operation" dispatch
arm, which sits behind the gate, can never be taken. -/
theorem unknown_operation_branch_unreachable :
    (∀ (op : String) (perms : List String),
      operationAllowed op perms = true → op ∈ recognizedOps) ∧
    (∀ (st : State) (host : Host) (cmd : FsCommand),
      cmd.operation ∉ recognizedOps →
      processOne st host cmd =
        ((cmd.operation, "Operation '" ++ cmd.operation ++ "' not permitted"), [])) := by
  refine ⟨allowed_imp_recognized, ?_⟩
  intro st host cmd h
  refine processOne_denied st host cmd ?_
  cases hA : operationAllowed cmd.operation st.permissions
  · rfl
  · exact absurd (allowed_imp_recognized _ _ hA) h

/-- C10 (witness): the unrecognized operation "zip" is denied outright. -/
theorem unknown_operation_witness :
    "zip" ∉ recognizedOps ∧
    processOne demoRWState demoHost
        { operation := "zip", path := "p", content := none,
          old_text := none, new_text := none } =
      (("zip", "Operation 'zip' not permitted"), []) :=
  ⟨by decide,
    unknown_operation_branch_unreachable.2 demoRWState demoHost
      { operation := "zip", path := "p", content := none,
        old_text := none, new_text := none } (by decide)⟩

/-- C2 (counterexample): the loader does not support the older protocol
shape.  A store response with status "ok" whose byte-array payload sits
directly under a top-level `value` key — with an entry decoder that would
happily succeed — still fails with the StoreError, because the code only
looks under `data.Get.value`. -/
theorem loader_rejects_top_level_value_payload :
    demoStoreState.load_message (mkDemoOracle demoOldResp) "entry-1" =
      .error "Failed to load message from store" := by
  rfl

/-- C2 (amended): for every store response whose status is "ok", the loader
finds the byte-array payload only when it is nested under `data.Get.value`
(the newer protocol); it then decodes those bytes as the ChainEntry. -/
theorem loader_accepts_nested_get_value
    (st : State) (oracle : StoreOracle) (id sid : String)
    (rb resp_bytes : List Nat) (resp : Json) (items : List Json)
    (entry : ChainEntry)
    (hsid : st.store_id = some sid)
    (htv : oracle.to_vec { _type := "request", data := .Get id } = .ok rb)
    (hreq : oracle.request sid rb = .ok resp_bytes)
    (hpj : oracle.parse_json resp_bytes = .ok resp)
    (hst : jsonAsStr (jsonIndex resp "status") = some "ok")
    (hval : ((jsonGet resp "data").bind (fun d => jsonGet d "Get")).bind
        (fun g => jsonGet g "value") = some (Json.arr items))
    (hpc : oracle.parse_chain_entry
        (items.map (fun v => (jsonAsU64 v).getD 0 % 256)) = .ok entry) :
    st.load_message oracle id = .ok entry := by
  simp [State.load_message, hsid, htv, hreq, hpj, hst, hval, jsonAsArr, hpc]

/-- C2 (witness): the newer protocol shape loads `demoEntry`. -/
theorem loader_nested_get_value_witness :
    jsonAsStr (jsonIndex demoNewResp "status") = some "ok" ∧
    demoStoreState.load_message (mkDemoOracle demoNewResp) "entry-1" =
      .ok demoEntry :=
  ⟨rfl,
    loader_accepts_nested_get_value demoStoreState (mkDemoOracle demoNewResp)
      "entry-1" "s" [] [] demoNewResp [Json.num 104, Json.num 105] demoEntry
      rfl rfl rfl rfl rfl rfl rfl⟩

/-- C3 (counterexample): a session already bound to identity "a" and store
"s" that processes a further introduction carrying identity "b" and store
"t" comes out bound to "b" and "t" — the fields are reassigned, refuting
"first binding wins". -/
theorem introduction_rebinds_bound_identity :
    demoStoreState.child_id = some "a" ∧
    demoStoreState.store_id = some "s" ∧
    (handle_request demoStoreState introRebindReq (mkDemoOracle demoErrResp)
        demoHost).map (fun p => (p.1.child_id, p.1.store_id)) =
      some (some "b", some "t") :=
  ⟨rfl, rfl, rfl⟩

/-- C3 (amended): every introduction message carrying both an identity and a
store handle (re)assigns them into the Session unconditionally — the last
binding wins — leaving the other session fields unchanged. -/
theorem introduction_last_binding_wins
    (st : State) (request : Json) (oracle : StoreOracle) (host : Host)
    (data : Json) (c sd : String)
    (hmt : jsonAsStr (jsonIndex request "msg_type") = some "introduction")
    (hdata : jsonGet request "data" = some data)
    (hc : jsonGetStr data "child_id" = some c)
    (hs : jsonGetStr data "store_id" = some sd) :
    (handle_request st request oracle host).map (fun p => p.1) =
      some { st with child_id := some c, store_id := some sd } := by
  simp [handle_request, hmt, hdata, hc, hs]

/-- C3 (witness): the rebinding theorem applied to the bound session. -/
theorem introduction_rebinding_witness :
    jsonGetStr introData "child_id" = some "b" ∧
    (handle_request demoStoreState introRebindReq (mkDemoOracle demoErrResp)
        demoHost).map (fun p => p.1) =
      some { demoStoreState with child_id := some "b", store_id := some "t" } :=
  ⟨rfl,
    introduction_last_binding_wins demoStoreState introRebindReq
      (mkDemoOracle demoErrResp) demoHost introData "b" "t" rfl rfl rfl rfl⟩

/-- C8: every failed load is one `Except.error`: a non-"ok" status or a
missing payload yields the single StoreError message, and an entry-decode
failure propagates as the one error value; on head-update the dispatcher
then emits a diagnostic reply carrying the failure text and returns the
session unchanged. -/
theorem store_error_single_and_dispatcher_diagnoses :
    (∀ (st : State) (oracle : StoreOracle) (id sid : String)
        (rb resp_bytes : List Nat) (resp : Json),
      st.store_id = some sid →
      oracle.to_vec { _type := "request", data := .Get id } = .ok rb →
      oracle.request sid rb = .ok resp_bytes →
      oracle.parse_json resp_bytes = .ok resp →
      jsonAsStr (jsonIndex resp "status") ≠ some "ok" →
      st.load_message oracle id = .error "Failed to load message from store") ∧
    (∀ (st : State) (oracle : StoreOracle) (id sid : String)
        (rb resp_bytes : List Nat) (resp : Json),
      st.store_id = some sid →
      oracle.to_vec { _type := "request", data := .Get id } = .ok rb →
      oracle.request sid rb = .ok resp_bytes →
      oracle.parse_json resp_bytes = .ok resp →
      jsonAsStr (jsonIndex resp "status") = some "ok" →
      ((jsonGet resp "data").bind (fun d => jsonGet d "Get")).bind
        (fun g => jsonGet g "value") = none →
      st.load_message oracle id = .error "Failed to load message from store") ∧
    (∀ (st : State) (oracle : StoreOracle) (id sid : String)
        (rb resp_bytes : List Nat) (resp : Json) (items : List Json) (e : String),
      st.store_id = some sid →
      oracle.to_vec { _type := "request", data := .Get id } = .ok rb →
      oracle.request sid rb = .ok resp_bytes →
      oracle.parse_json resp_bytes = .ok resp →
      jsonAsStr (jsonIndex resp "status") = some "ok" →
      ((jsonGet resp "data").bind (fun d => jsonGet d "Get")).bind
        (fun g => jsonGet g "value") = some (Json.arr items) →
      oracle.parse_chain_entry
        (items.map (fun v => (jsonAsU64 v).getD 0 % 256)) = .error e →
      st.load_message oracle id = .error e) ∧
    (∀ (st : State) (request : Json) (oracle : StoreOracle) (host : Host)
        (c h e : String),
      st.child_id = some c →
      jsonAsStr (jsonIndex request "msg_type") = some "head-update" →
      jsonAsStr (jsonIndex (jsonIndex request "data") "head") = some h →
      st.load_message oracle h = .error e →
      handle_request st request oracle host =
        some (st,
          { child_id := c, text := "Failed to load message: " ++ e,
            html := some (errorHtml ("Failed to load message: " ++ e)),
            parent_id := some h,
            data := Json.obj [("head", Json.str h)] })) := by
  refine ⟨?_, ?_, ?_, ?_⟩
  · intro st oracle id sid rb resp_bytes resp h1 h2 h3 h4 h5
    simp [State.load_message, h1, h2, h3, h4, h5]
  · intro st oracle id sid rb resp_bytes resp h1 h2 h3 h4 h5 h6
    simp [State.load_message, h1, h2, h3, h4, h5, h6]
  · intro st oracle id sid rb resp_bytes resp items e h1 h2 h3 h4 h5 h6 h7
    simp [State.load_message, h1, h2, h3, h4, h5, h6, jsonAsArr, h7]
  · intro st request oracle host c h e h1 h2 h3 h4
    simp [handle_request, h1, h2, h3, h4]

/-- C8 (witness): a store response with status "error" makes the loader fail
with the StoreError, and the head-update dispatcher replies with the
diagnostic while leaving the session untouched. -/
theorem store_error_diagnostic_witness :
    demoStoreState.load_message (mkDemoOracle demoErrResp) "h1" =
      .error "Failed to load message from store" ∧
    handle_request demoStoreState headUpdateReq (mkDemoOracle demoErrResp)
        demoHost =
      some (demoStoreState,
        { child_id := "a",
          text := "Failed to load message: "
            ++ "Failed to load message from store",
          html := some (errorHtml ("Failed to load message: "
            ++ "Failed to load message from store")),
          parent_id := some "h1",
          data := Json.obj [("head", Json.str "h1")] }) :=
  ⟨rfl,
    store_error_single_and_dispatcher_diagnoses.2.2.2 demoStoreState
      headUpdateReq (mkDemoOracle demoErrResp) demoHost "a" "h1"
      "Failed to load message from store" rfl rfl rfl rfl⟩

/-- C9 (counterexample): a configuration that parses and lacks a
"permissions" array, but carries a name, keeps that name: the permission set
falls back to full access, yet the name does not default to "default" as the
claim requires for every such input. -/
theorem init_keeps_configured_name_despite_missing_permissions :
    (State.new (some (.ok (Json.obj [("name", Json.str "foo")])))).name ≠
        "default" ∧
    (State.new (some (.ok (Json.obj [("name", Json.str "foo")])))).permissions =
        ["read", "write"] :=
  ⟨by decide, rfl⟩

/-- C9 (amended): absent or unparseable configuration data yields the full
default session (name "default", base path ".", permissions
["read", "write"]); configuration that parses but lacks a "permissions"
array still defaults the permission set to ["read", "write"], while name and
base path default only when their own fields are absent or not strings. -/
theorem init_defaults_by_field :
    State.new none =
      { name := "default", child_id := none, store_id := none,
        base_path := ".", permissions := ["read", "write"] } ∧
    (∀ e : String, State.new (some (.error e)) =
      { name := "default", child_id := none, store_id := none,
        base_path := ".", permissions := ["read", "write"] }) ∧
    (∀ config : Json, jsonAsArr (jsonIndex config "permissions") = none →
      (State.new (some (.ok config))).permissions = ["read", "write"] ∧
      (State.new (some (.ok config))).name =
        (jsonAsStr (jsonIndex config "name")).getD "default" ∧
      (State.new (some (.ok config))).base_path =
        (jsonAsStr (jsonIndex config "base_path")).getD ".") := by
  refine ⟨rfl, fun e => rfl, ?_⟩
  intro config hperm
  refine ⟨?_, rfl, rfl⟩
  simp [State.new, hperm]

/-- C9 (witness): the per-field defaults applied to a config carrying only a
name. -/
theorem init_defaults_witness :
    jsonAsArr (jsonIndex (Json.obj [("name", Json.str "foo")]) "permissions") =
        none ∧
    ((State.new (some (.ok (Json.obj [("name", Json.str "foo")])))).permissions =
        ["read", "write"] ∧
      (State.new (some (.ok (Json.obj [("name", Json.str "foo")])))).name =
        (jsonAsStr (jsonIndex (Json.obj [("name", Json.str "foo")]) "name")).getD
          "default" ∧
      (State.new (some (.ok (Json.obj [("name", Json.str "foo")])))).base_path =
        (jsonAsStr (jsonIndex (Json.obj [("name", Json.str "foo")])
            "base_path")).getD ".") :=
  ⟨rfl, init_defaults_by_field.2.2 (Json.obj [("name", Json.str "foo")]) rfl⟩

end FsChild
